import Mathlib

/-!
Verification of the CommuteOptimizer static file gateway
(`src/TestBuild/server.py`), a Flask application with three routes
(`/`, `/api/<filename>`, `/health`), app-level 404/500 error handlers,
and permissive CORS applied to every response.

The filesystem is modelled as an explicit state: the files of the
current directory (from which `index.html` is served), whether the
data directory exists, and the files it holds (name, byte content).
Request handlers are translated from the Python source; the Flask /
werkzeug library calls the source makes (`send_from_directory`,
`jsonify`, `os.listdir`, `os.path.exists`, `os.makedirs`, `CORS(app)`)
are modelled from their documented behavior.  In particular
`send_from_directory` signals a missing (or unsafe) path by raising
the werkzeug `NotFound` HTTP exception — not the builtin
`FileNotFoundError` — so the `except FileNotFoundError` clauses in the
source never fire and missing files are answered by the registered
404 error handler.
-/

namespace CommuteOptimizer

/-- File content as a list of byte values. -/
abbrev Bytes := List Nat

/-- Response bodies the server can produce: raw file bytes, a JSON
object with a single `error` message field (the shape `jsonify` gives
every error response in the source), or the `/health` JSON object with
`status`, `version` and `data_files` fields. -/
inductive Body where
  | fileContent : Bytes → Body
  | jsonError : String → Body
  | healthJson : (status : String) → (version : String) → (dataFiles : List String) → Body
deriving Repr, DecidableEq

/-- An HTTP response: status code, content type, body, and the
`Access-Control-Allow-Origin` header (`none` when absent). -/
structure Response where
  status : Nat
  mimetype : String
  body : Body
  accessControlAllowOrigin : Option String
deriving Repr, DecidableEq

/-- The filesystem state visible to the server: files of the current
directory, existence of the data directory, and the entries of the
data directory (name, content). -/
structure FS where
  rootFiles : List (String × Bytes)
  dataDirExists : Bool
  dataFiles : List (String × Bytes)
deriving Repr, DecidableEq

/-- Constant `DATA_DIR` = "data" (server.py line 14). -/
def DATA_DIR : String := "data"

/-- Constant `HTML_FILE` = "index.html" (server.py line 15). -/
def HTML_FILE : String := "index.html"

/-- The two kinds of exception relevant to the try/except blocks of
the source: the werkzeug `NotFound` HTTP exception (raised by
`send_from_directory` for a missing or unsafe path) and the Python
builtin `FileNotFoundError` (the one the source tries to catch). -/
inductive PyExc where
  | notFoundHTTP
  | fileNotFoundError
deriving Repr, DecidableEq

/-- Look a filename up in the entry list of a directory. -/
def lookupFile : List (String × Bytes) → String → Option Bytes
  | [], _ => none
  | (n, c) :: rest, name => if name = n then some c else lookupFile rest name

/-- Python s.endswith(".csv") (server.py line 40): the last four
characters of `s` are `.csv`. -/
def endsWithCsv (s : String) : Bool :=
  List.isSuffixOf ['.', 'c', 's', 'v'] s.toList

/-- Rejection test of werkzeug `safe_join`, modelled from its documented
behavior: a path is unsafe when it is absolute or has a `..`
component. -/
def isUnsafePath (s : String) : Bool :=
  (match s.toList with
   | '/' :: _ => true
   | _ => false) ||
  (s.toList.splitOn '/').any (fun p => p = ['.', '.'])

/-- Flask function `send_from_directory(dir, filename, mimetype)`, modelled
from its documented behavior: resolve `filename` against `dir` via
`safe_join` and serve the bytes of the file with the given content type;
raise werkzeug `NotFound` when the path is unsafe or the file is
absent (it does not raise `FileNotFoundError`). -/
def sendFromDirectory (dir : List (String × Bytes)) (filename : String) (mt : String) :
    Except PyExc Response :=
  if isUnsafePath filename then .error .notFoundHTTP
  else
    match lookupFile dir filename with
    | some content =>
        .ok { status := 200, mimetype := mt, body := .fileContent content,
              accessControlAllowOrigin := none }
    | none => .error .notFoundHTTP

/-- A JSON error response, as built by jsonify with an error field
and a status code. -/
def jsonResponse (code : Nat) (msg : String) : Response :=
  { status := code, mimetype := "application/json", body := .jsonError msg,
    accessControlAllowOrigin := none }

/-- Handler `index` (server.py lines 24–30): serve `HTML_FILE` from the
current directory, catching only `FileNotFoundError`. -/
def index (fs : FS) : Except PyExc Response :=
  match sendFromDirectory fs.rootFiles HTML_FILE "text/html" with
  | .ok r => .ok r
  | .error .fileNotFoundError => .ok (jsonResponse 404 "index.html not found")
  | .error e => .error e

/-- The resolution part of `serve_csv` (server.py lines 43–46): the
`try/except` around `send_from_directory(DATA_DIR, filename,
mimetype="text/csv")`, catching only `FileNotFoundError`. -/
def serveCsvResolve (fs : FS) (filename : String) : Except PyExc Response :=
  match sendFromDirectory fs.dataFiles filename "text/csv" with
  | .ok r => .ok r
  | .error .fileNotFoundError => .ok (jsonResponse 404 (filename ++ " not found"))
  | .error e => .error e

/-- Handler `serve_csv` (server.py lines 33–46): the `.csv` suffix check,
then resolution against the data directory. -/
def serve_csv (fs : FS) (filename : String) : Except PyExc Response :=
  if ¬ endsWithCsv filename then .ok (jsonResponse 403 "Only CSV files allowed")
  else serveCsvResolve fs filename

/-- The live data directory listing, `os.listdir(DATA_DIR) if
os.path.exists(DATA_DIR) else []` (server.py line 55). -/
def currentListing (fs : FS) : List String :=
  if fs.dataDirExists then fs.dataFiles.map Prod.fst else []

/-- Handler `health` (server.py lines 49–56). -/
def health (fs : FS) : Except PyExc Response :=
  .ok { status := 200, mimetype := "application/json",
        body := .healthJson "healthy" "3.0" (currentListing fs),
        accessControlAllowOrigin := none }

/-- The app-level 404 handler `not_found` (server.py lines 59–61). -/
def not_found : Response := jsonResponse 404 "Resource not found"

/-- The app-level 500 handler `internal_error` (server.py lines 63–65). -/
def internal_error : Response := jsonResponse 500 "Internal server error"

/-- The requests the app routes: `GET /`, `GET /api/<filename>`,
`GET /health`, and any unmatched path. -/
inductive Request where
  | root
  | api : String → Request
  | healthReq
  | unmatched
deriving Repr, DecidableEq

/-- Flask route dispatch: run the matched handler, or raise `NotFound`
for an unmatched path. -/
def dispatch (fs : FS) (req : Request) : Except PyExc Response :=
  match req with
  | .root => index fs
  | .api filename => serve_csv fs filename
  | .healthReq => health fs
  | .unmatched => .error .notFoundHTTP

/-- Model of `CORS(app)` (server.py line 11), from the documented
behavior of flask-cors: set `Access-Control-Allow-Origin: *` on the
outgoing response, whatever the request origin. -/
def addCors (r : Response) : Response :=
  { r with accessControlAllowOrigin := some "*" }

/-- The full request/response cycle: dispatch, turn an escaped
`NotFound` into the response of the registered 404 handler and any
other escaped exception into the response of the 500 handler, then
apply CORS. -/
def handleRequest (fs : FS) (req : Request) : Response :=
  addCors
    (match dispatch fs req with
     | .ok r => r
     | .error .notFoundHTTP => not_found
     | .error .fileNotFoundError => internal_error)

/-! ## State-threaded semantics

To talk about write effects on the filesystem, each operating-system
primitive the source uses is given in state-passing style: it returns
its result together with the filesystem state after the call.  The
read primitives (`open`/read inside `send_from_directory`,
`os.listdir`, `os.path.exists`) leave the directory contents
untouched; `os.makedirs` creates the data directory. -/

/-- Primitive for `os.path.exists(DATA_DIR)` in state-passing style. -/
def osPathExistsData (fs : FS) : Bool × FS := (fs.dataDirExists, fs)

/-- Primitive for `os.makedirs(DATA_DIR)` in state-passing style. -/
def osMakedirsData (fs : FS) : Unit × FS :=
  ((), { fs with dataDirExists := true })

/-- Primitive for `os.listdir(DATA_DIR)` in state-passing style. -/
def osListdirData (fs : FS) : List String × FS := (fs.dataFiles.map Prod.fst, fs)

/-- Primitive for `send_from_directory` in state-passing style: it opens,
streams and closes the file, leaving the filesystem unchanged. -/
def sendFromDirectorySt (fs : FS) (dir : List (String × Bytes)) (filename : String)
    (mt : String) : Except PyExc Response × FS :=
  (sendFromDirectory dir filename mt, fs)

/-- Startup (server.py lines 19–21): create the data directory if it
does not exist. -/
def startup (fs : FS) : FS :=
  if (osPathExistsData fs).1 then fs else (osMakedirsData fs).2

/-- Handler `index` in state-passing style. -/
def indexSt (fs : FS) : Except PyExc Response × FS :=
  match sendFromDirectorySt fs fs.rootFiles HTML_FILE "text/html" with
  | (.ok r, fs1) => (.ok r, fs1)
  | (.error .fileNotFoundError, fs1) => (.ok (jsonResponse 404 "index.html not found"), fs1)
  | (.error e, fs1) => (.error e, fs1)

/-- Handler `serve_csv` in state-passing style. -/
def serveCsvSt (fs : FS) (filename : String) : Except PyExc Response × FS :=
  if ¬ endsWithCsv filename then (.ok (jsonResponse 403 "Only CSV files allowed"), fs)
  else
    match sendFromDirectorySt fs fs.dataFiles filename "text/csv" with
    | (.ok r, fs1) => (.ok r, fs1)
    | (.error .fileNotFoundError, fs1) =>
        (.ok (jsonResponse 404 (filename ++ " not found")), fs1)
    | (.error e, fs1) => (.error e, fs1)

/-- Handler `health` in state-passing style. -/
def healthSt (fs : FS) : Except PyExc Response × FS :=
  match osPathExistsData fs with
  | (true, fs1) =>
      match osListdirData fs1 with
      | (names, fs2) =>
          (.ok { status := 200, mimetype := "application/json",
                 body := .healthJson "healthy" "3.0" names,
                 accessControlAllowOrigin := none }, fs2)
  | (false, fs1) =>
      (.ok { status := 200, mimetype := "application/json",
             body := .healthJson "healthy" "3.0" [],
             accessControlAllowOrigin := none }, fs1)

/-- Route dispatch in state-passing style. -/
def dispatchSt (fs : FS) (req : Request) : Except PyExc Response × FS :=
  match req with
  | .root => indexSt fs
  | .api filename => serveCsvSt fs filename
  | .healthReq => healthSt fs
  | .unmatched => (.error .notFoundHTTP, fs)

/-- The full request/response cycle in state-passing style: the
error handlers build their responses without touching the filesystem. -/
def handleRequestSt (fs : FS) (req : Request) : Response × FS :=
  match dispatchSt fs req with
  | (.ok r, fs1) => (addCors r, fs1)
  | (.error .notFoundHTTP, fs1) => (addCors not_found, fs1)
  | (.error .fileNotFoundError, fs1) => (addCors internal_error, fs1)

/-! ## Concrete filesystem states for witnesses -/

/-- The bytes of the example CSV content of the spec, two lines
A,B and 1,2 each ending in a newline. -/
def locationsBytes : Bytes := [65, 44, 66, 10, 49, 44, 50, 10]

/-- A populated filesystem: an entry document, and a data directory
holding `Locations.csv` and a non-CSV file `notes.txt`. -/
def fsExample : FS :=
  { rootFiles := [("index.html", [60, 104, 116, 109, 108, 62])],
    dataDirExists := true,
    dataFiles := [("Locations.csv", locationsBytes), ("notes.txt", [104, 105])] }

/-- A filesystem with the entry document and all data files absent. -/
def fsEmpty : FS :=
  { rootFiles := [], dataDirExists := true, dataFiles := [] }

/-- Every name in the data directory entry list is a safe path: real
directory entries contain no path separator and are not the `..`
component. -/
def dataNamesSafe (fs : FS) : Prop :=
  ∀ p ∈ fs.dataFiles, isUnsafePath p.1 = false

/-- Drop a new file into the data directory (an external write between
two requests); the directory then exists. -/
def addDataFile (fs : FS) (name : String) (c : Bytes) : FS :=
  { fs with dataDirExists := true, dataFiles := (name, c) :: fs.dataFiles }

/-! ## Helper lemmas -/

/-- A successful lookup names an entry of the directory list. -/
theorem lookupFile_mem {l : List (String × Bytes)} {name : String} {c : Bytes}
    (h : lookupFile l name = some c) : (name, c) ∈ l := by
  induction l with
  | nil => simp [lookupFile] at h
  | cons p rest ih =>
    obtain ⟨n, b⟩ := p
    by_cases hn : name = n
    · subst hn
      simp [lookupFile] at h
      simp [h]
    · simp [lookupFile, hn] at h
      exact List.mem_cons_of_mem _ (ih h)

/-- A name paired with some content in the entry list appears in the
listing. -/
theorem mem_map_fst {l : List (String × Bytes)} {name : String} {c : Bytes}
    (h : (name, c) ∈ l) : name ∈ l.map Prod.fst :=
  List.mem_map_of_mem Prod.fst h

/-- A successful `send_from_directory` response has status 200. -/
theorem sendFromDirectory_ok_status {dir : List (String × Bytes)} {filename mt : String}
    {r : Response} (h : sendFromDirectory dir filename mt = .ok r) : r.status = 200 := by
  unfold sendFromDirectory at h
  split at h
  · simp at h
  · split at h
    · cases h
      rfl
    · simp at h

/-- `send_from_directory` never raises `FileNotFoundError`: a missing
or unsafe path raises the werkzeug `NotFound` HTTP exception. -/
theorem sendFromDirectory_no_fnf (dir : List (String × Bytes)) (filename mt : String) :
    sendFromDirectory dir filename mt ≠ .error .fileNotFoundError := by
  unfold sendFromDirectory
  split
  · simp
  · split <;> simp

/-- A missing (or traversal-unsafe) `.csv` file is answered by the
app-level 404 handler. -/
theorem handleRequest_api_missing (fs : FS) (filename : String)
    (hcsv : endsWithCsv filename = true)
    (hlk : lookupFile fs.dataFiles filename = none) :
    handleRequest fs (.api filename) = addCors not_found := by
  cases hus : isUnsafePath filename with
  | true =>
      simp [handleRequest, dispatch, serve_csv, hcsv, serveCsvResolve, sendFromDirectory, hus]
  | false =>
      simp [handleRequest, dispatch, serve_csv, hcsv, serveCsvResolve, sendFromDirectory,
            hus, hlk]

/-- A missing entry document is answered by the app-level 404 handler. -/
theorem handleRequest_root_missing (fs : FS)
    (hroot : lookupFile fs.rootFiles HTML_FILE = none) :
    handleRequest fs .root = addCors not_found := by
  have hus : isUnsafePath HTML_FILE = false := by decide
  simp [handleRequest, dispatch, index, sendFromDirectory, hus, hroot]

/-! ## Claim theorems -/

/-- C1: for every filename that does not end with `.csv`, GetDataFile
(the `/api/<filename>` handler `serve_csv`) returns HTTP 403 with a
JSON body carrying an error message field; the response is the same
for every filesystem state, so no file content is read or returned. -/
theorem getDataFile_non_csv_forbidden (fs : FS) (filename : String)
    (h : endsWithCsv filename = false) :
    handleRequest fs (.api filename) = addCors (jsonResponse 403 "Only CSV files allowed") ∧
    (handleRequest fs (.api filename)).status = 403 ∧
    (handleRequest fs (.api filename)).body = .jsonError "Only CSV files allowed" ∧
    ∀ fs2 : FS, handleRequest fs2 (.api filename) = handleRequest fs (.api filename) := by
  have h1 : ∀ g : FS,
      handleRequest g (.api filename) = addCors (jsonResponse 403 "Only CSV files allowed") := by
    intro g
    simp [handleRequest, dispatch, serve_csv, h]
  refine ⟨h1 fs, ?_, ?_, fun fs2 => by rw [h1 fs2, h1 fs]⟩
  · rw [h1 fs]
    rfl
  · rw [h1 fs]
    rfl

/-- Witness for C1 at the concrete filename notes.txt. -/
theorem getDataFile_non_csv_forbidden_witness :
    endsWithCsv "notes.txt" = false ∧
    handleRequest fsExample (.api "notes.txt") =
      addCors (jsonResponse 403 "Only CSV files allowed") :=
  ⟨by decide, (getDataFile_non_csv_forbidden fsExample "notes.txt" (by decide)).1⟩

/-- C2: for every filename ending with `.csv` that names an existing
file of the data directory, GetDataFile returns HTTP 200 with a body
byte-identical to the stored content and the text/csv content type. -/
theorem getDataFile_existing_csv_served (fs : FS) (filename : String) (content : Bytes)
    (hsafe : dataNamesSafe fs)
    (hcsv : endsWithCsv filename = true)
    (hlk : lookupFile fs.dataFiles filename = some content) :
    handleRequest fs (.api filename) =
      addCors { status := 200, mimetype := "text/csv", body := .fileContent content,
                accessControlAllowOrigin := none } := by
  have hus : isUnsafePath filename = false := hsafe _ (lookupFile_mem hlk)
  simp [handleRequest, dispatch, serve_csv, hcsv, serveCsvResolve, sendFromDirectory, hus, hlk]

/-- Witness for C2: Locations.csv with the example content is served
byte-identical. -/
theorem getDataFile_existing_csv_served_witness :
    dataNamesSafe fsExample ∧ endsWithCsv "Locations.csv" = true ∧
    lookupFile fsExample.dataFiles "Locations.csv" = some locationsBytes ∧
    handleRequest fsExample (.api "Locations.csv") =
      addCors { status := 200, mimetype := "text/csv", body := .fileContent locationsBytes,
                accessControlAllowOrigin := none } :=
  ⟨by simp only [dataNamesSafe, fsExample]; decide, by decide, by decide,
   getDataFile_existing_csv_served fsExample "Locations.csv" locationsBytes
     (by simp only [dataNamesSafe, fsExample]; decide) (by decide) (by decide)⟩

/-- C3: the `.csv` suffix match is the sole access-control check of
GetDataFile: for every filename ending in `.csv` — including a
traversal name such as ../secret.csv — `serve_csv` applies no further
rejection of its own and proceeds to the resolution against the data
directory, so its response is never the 403 Forbidden one. -/
theorem csv_suffix_sole_check (fs : FS) (filename : String)
    (hcsv : endsWithCsv filename = true) :
    serve_csv fs filename = serveCsvResolve fs filename ∧
    (handleRequest fs (.api filename)).status ≠ 403 := by
  constructor
  · simp [serve_csv, hcsv]
  · cases hsf : sendFromDirectory fs.dataFiles filename "text/csv" with
    | ok r =>
        have h2 : r.status = 200 := sendFromDirectory_ok_status hsf
        simp [handleRequest, dispatch, serve_csv, hcsv, serveCsvResolve, hsf, addCors, h2]
    | error e =>
        cases e <;>
          simp [handleRequest, dispatch, serve_csv, hcsv, serveCsvResolve, hsf, addCors,
                not_found, jsonResponse]

/-- Witness for C3 at the traversal name ../secret.csv: it passes the
suffix check and reaches resolution, so the answer is not 403. -/
theorem csv_suffix_sole_check_witness :
    endsWithCsv "../secret.csv" = true ∧
    serve_csv fsExample "../secret.csv" = serveCsvResolve fsExample "../secret.csv" ∧
    (handleRequest fsExample (.api "../secret.csv")).status ≠ 403 :=
  ⟨by decide, (csv_suffix_sole_check fsExample "../secret.csv" (by decide)).1,
   (csv_suffix_sole_check fsExample "../secret.csv" (by decide)).2⟩

/-- C4: HealthCheck answers HTTP 200 for every filesystem state, its
data_files field is the live directory listing at call time (empty
when the directory is absent), and a file added to the data directory
appears in the listing of the very next call, with no caching and no
restart. -/
theorem healthCheck_always_200_live (fs : FS) :
    (handleRequest fs .healthReq).status = 200 ∧
    (handleRequest fs .healthReq).body = .healthJson "healthy" "3.0" (currentListing fs) ∧
    ((fs.dataDirExists = false) → currentListing fs = []) ∧
    ∀ (name : String) (c : Bytes),
      (handleRequest (addDataFile fs name c) .healthReq).body =
        .healthJson "healthy" "3.0" (currentListing (addDataFile fs name c)) ∧
      name ∈ currentListing (addDataFile fs name c) := by
  refine ⟨rfl, rfl, ?_, ?_⟩
  · intro hd
    simp [currentListing, hd]
  · intro name c
    refine ⟨rfl, ?_⟩
    simp [currentListing, addDataFile]

/-- Witness for C4 at the empty filesystem: the listing is empty when
the directory is reported absent. -/
theorem healthCheck_always_200_live_witness :
    ({ fsEmpty with dataDirExists := false } : FS).dataDirExists = false ∧
    currentListing { fsEmpty with dataDirExists := false } = [] :=
  ⟨by decide,
   (healthCheck_always_200_live { fsEmpty with dataDirExists := false }).2.2.1 (by decide)⟩

/-- C5: for every filename ending with `.csv` that does not name an
existing file of the data directory, GetDataFile answers HTTP 404 with
a JSON body carrying an error message field. -/
theorem getDataFile_missing_csv_404 (fs : FS) (filename : String)
    (hcsv : endsWithCsv filename = true)
    (hlk : lookupFile fs.dataFiles filename = none) :
    (handleRequest fs (.api filename)).status = 404 ∧
    ∃ msg, (handleRequest fs (.api filename)).body = .jsonError msg := by
  rw [handleRequest_api_missing fs filename hcsv hlk]
  exact ⟨rfl, "Resource not found", rfl⟩

/-- Witness for C5 at Missing.csv against the empty data directory. -/
theorem getDataFile_missing_csv_404_witness :
    endsWithCsv "Missing.csv" = true ∧
    lookupFile fsEmpty.dataFiles "Missing.csv" = none ∧
    ((handleRequest fsEmpty (.api "Missing.csv")).status = 404 ∧
      ∃ msg, (handleRequest fsEmpty (.api "Missing.csv")).body = .jsonError msg) :=
  ⟨by decide, by decide,
   getDataFile_missing_csv_404 fsEmpty "Missing.csv" (by decide) (by decide)⟩

/-- C6: when the entry HTML document is absent from disk,
GetEntryDocument (the `/` handler `index`) answers HTTP 404 with a
JSON error body, and never a 500 server fault. -/
theorem getEntryDocument_absent_404 (fs : FS)
    (hroot : lookupFile fs.rootFiles HTML_FILE = none) :
    (handleRequest fs .root).status = 404 ∧
    (∃ msg, (handleRequest fs .root).body = .jsonError msg) ∧
    (handleRequest fs .root).status ≠ 500 := by
  rw [handleRequest_root_missing fs hroot]
  exact ⟨rfl, ⟨"Resource not found", rfl⟩, by decide⟩

/-- Witness for C6 at the filesystem with no entry document. -/
theorem getEntryDocument_absent_404_witness :
    lookupFile fsEmpty.rootFiles HTML_FILE = none ∧
    ((handleRequest fsEmpty .root).status = 404 ∧
      (∃ msg, (handleRequest fsEmpty .root).body = .jsonError msg) ∧
      (handleRequest fsEmpty .root).status ≠ 500) :=
  ⟨by decide, getEntryDocument_absent_404 fsEmpty (by decide)⟩

/-- C7: every response the server produces — success or error, on
every route — carries the permissive cross-origin header, irrespective
of the request. -/
theorem every_response_has_cors (fs : FS) (req : Request) :
    (handleRequest fs req).accessControlAllowOrigin = some "*" := rfl

/-- The state-threaded request cycle returns the same response as the
pure one and hands the filesystem back unchanged. -/
theorem handleRequestSt_eq (fs : FS) (req : Request) :
    handleRequestSt fs req = (handleRequest fs req, fs) := by
  cases req with
  | root =>
      cases hsf : sendFromDirectory fs.rootFiles HTML_FILE "text/html" with
      | ok r =>
          simp [handleRequestSt, dispatchSt, indexSt, sendFromDirectorySt, hsf,
                handleRequest, dispatch, index]
      | error e =>
          cases e <;>
            simp [handleRequestSt, dispatchSt, indexSt, sendFromDirectorySt, hsf,
                  handleRequest, dispatch, index]
  | api filename =>
      cases hc : endsWithCsv filename with
      | false =>
          simp [handleRequestSt, dispatchSt, serveCsvSt, hc,
                handleRequest, dispatch, serve_csv]
      | true =>
          cases hsf : sendFromDirectory fs.dataFiles filename "text/csv" with
          | ok r =>
              simp [handleRequestSt, dispatchSt, serveCsvSt, hc, sendFromDirectorySt, hsf,
                    handleRequest, dispatch, serve_csv, serveCsvResolve]
          | error e =>
              cases e <;>
                simp [handleRequestSt, dispatchSt, serveCsvSt, hc, sendFromDirectorySt, hsf,
                      handleRequest, dispatch, serve_csv, serveCsvResolve]
  | healthReq =>
      cases hd : fs.dataDirExists <;>
        simp [handleRequestSt, dispatchSt, healthSt, osPathExistsData, osListdirData, hd,
              handleRequest, dispatch, health, currentListing]
  | unmatched => rfl

/-- C8: no request handler writes to the filesystem: for every request
the state after handling equals the state before, and the response is
the pure function of the incoming state; the only write in the
program, the startup creation of the data directory, changes nothing
but the existence of that directory. -/
theorem request_handlers_read_only (fs : FS) (req : Request) :
    (handleRequestSt fs req).2 = fs ∧
    (handleRequestSt fs req).1 = handleRequest fs req ∧
    (startup fs).rootFiles = fs.rootFiles ∧
    (startup fs).dataFiles = fs.dataFiles ∧
    (startup fs).dataDirExists = true := by
  rw [handleRequestSt_eq]
  refine ⟨rfl, rfl, ?_, ?_, ?_⟩ <;>
    cases hd : fs.dataDirExists <;>
      simp [startup, osPathExistsData, osMakedirsData, hd]

/-- No response of `serve_csv` is the per-route 404 body built inside
its dead `except FileNotFoundError` clause. -/
theorem serve_csv_no_local_404 (fs : FS) (filename : String) :
    serve_csv fs filename ≠ .ok (jsonResponse 404 (filename ++ " not found")) := by
  unfold serve_csv
  split
  · simp [jsonResponse]
  · unfold serveCsvResolve
    cases hsf : sendFromDirectory fs.dataFiles filename "text/csv" with
    | ok r =>
        have h2 : r.status = 200 := sendFromDirectory_ok_status hsf
        simp only [ne_eq, Except.ok.injEq]
        intro he
        rw [he] at h2
        simp [jsonResponse] at h2
    | error e =>
        cases e
        · simp
        · exact absurd hsf (sendFromDirectory_no_fnf _ _ _)

/-- No response of `index` is the per-route 404 body built inside its
dead `except FileNotFoundError` clause. -/
theorem index_no_local_404 (fs : FS) :
    index fs ≠ .ok (jsonResponse 404 "index.html not found") := by
  unfold index
  cases hsf : sendFromDirectory fs.rootFiles HTML_FILE "text/html" with
  | ok r =>
      have h2 : r.status = 200 := sendFromDirectory_ok_status hsf
      simp only [ne_eq, Except.ok.injEq]
      intro he
      rw [he] at h2
      simp [jsonResponse] at h2
  | error e =>
      cases e
      · simp
      · exact absurd hsf (sendFromDirectory_no_fnf _ _ _)

/-- C9: the `except FileNotFoundError` branches of `index` and
`serve_csv` are unreachable: `send_from_directory` raises the werkzeug
`NotFound` HTTP exception for a missing path, never
`FileNotFoundError`, so neither per-route 404 message is ever
produced, and a missing file is answered by the registered app-level
404 handler with the body message Resource not found. -/
theorem except_fnf_branches_unreachable (fs : FS) (filename : String)
    (hlk : lookupFile fs.dataFiles filename = none)
    (hroot : lookupFile fs.rootFiles HTML_FILE = none) :
    (∀ (dir : List (String × Bytes)) (f mt : String),
        sendFromDirectory dir f mt ≠ .error .fileNotFoundError) ∧
    (∀ (fs2 : FS) (f : String),
        serve_csv fs2 f ≠ .ok (jsonResponse 404 (f ++ " not found"))) ∧
    (∀ fs2 : FS, index fs2 ≠ .ok (jsonResponse 404 "index.html not found")) ∧
    (endsWithCsv filename = true →
      handleRequest fs (.api filename) = addCors (jsonResponse 404 "Resource not found")) ∧
    handleRequest fs .root = addCors (jsonResponse 404 "Resource not found") := by
  refine ⟨sendFromDirectory_no_fnf, serve_csv_no_local_404, index_no_local_404, ?_, ?_⟩
  · intro hcsv
    rw [handleRequest_api_missing fs filename hcsv hlk]
    rfl
  · rw [handleRequest_root_missing fs hroot]
    rfl

/-- Witness for C9 at Missing.csv against the empty filesystem: both
404 responses carry the app-level handler message. -/
theorem except_fnf_branches_unreachable_witness :
    lookupFile fsEmpty.dataFiles "Missing.csv" = none ∧
    lookupFile fsEmpty.rootFiles HTML_FILE = none ∧
    endsWithCsv "Missing.csv" = true ∧
    handleRequest fsEmpty (.api "Missing.csv") =
      addCors (jsonResponse 404 "Resource not found") ∧
    handleRequest fsEmpty .root = addCors (jsonResponse 404 "Resource not found") :=
  ⟨by decide, by decide, by decide,
   (except_fnf_branches_unreachable fsEmpty "Missing.csv" (by decide) (by decide)).2.2.2.1
     (by decide),
   (except_fnf_branches_unreachable fsEmpty "Missing.csv" (by decide) (by decide)).2.2.2.2⟩

/-- C10: the HealthCheck body always has status exactly healthy and
version exactly 3.0, and its data_files list is the unfiltered
directory listing: every entry of the data directory appears in it,
also entries that do not end in `.csv`. -/
theorem health_body_fields_unfiltered (fs : FS) :
    (handleRequest fs .healthReq).body = .healthJson "healthy" "3.0" (currentListing fs) ∧
    ∀ (name : String) (c : Bytes), fs.dataDirExists = true → (name, c) ∈ fs.dataFiles →
      name ∈ currentListing fs := by
  refine ⟨rfl, ?_⟩
  intro name c hd hmem
  unfold currentListing
  rw [hd]
  simpa using mem_map_fst hmem

/-- Witness for C10: notes.txt, which `serve_csv` can never serve,
still appears in the health listing. -/
theorem health_body_fields_unfiltered_witness :
    fsExample.dataDirExists = true ∧
    ("notes.txt", [104, 105]) ∈ fsExample.dataFiles ∧
    endsWithCsv "notes.txt" = false ∧
    "notes.txt" ∈ currentListing fsExample :=
  ⟨by decide, by decide, by decide,
   (health_body_fields_unfiltered fsExample).2 "notes.txt" [104, 105] (by decide) (by decide)⟩

end CommuteOptimizer
